import Mathlib

/-!
Verification development for a LIFX LAN-protocol control stack
(`lifx_protocol.py`, `lifx_control.py`, `lifx_scanner.py`, `lifx_effects.py`).

Byte buffers are shallowly embedded as `List Nat` whose entries are byte
values; multi-byte integers are read and written little-endian with explicit
`% 256` decompositions, mirroring `struct.pack`/`struct.unpack` with the
formats used by the source (`<H`, `<I`, `<Q`).  Python code that performs
network I/O is embedded by passing the list of datagrams that arrive before
the operation's deadline as an explicit argument.
-/

namespace LIFX

/-! ## Protocol constants (`lifx_protocol.py`, module top) -/

def LIFX_PORT : Nat := 56700

def PROTOCOL_NUMBER : Nat := 1024

def GETSERVICE_TYPE : Nat := 2

def STATESERVICE_TYPE : Nat := 3

def ACKNOWLEDGEMENT_TYPE : Nat := 45

def SETCOLOR_TYPE : Nat := 102

def LIGHTSTATE_TYPE : Nat := 107

def SERVICE_UDP : Nat := 1

/-! ## Byte-level packing helpers

`struct.pack` with little-endian formats.  The `% 256` on every emitted byte
makes the field width explicit; the claims proved below only instantiate
these with in-range values (out-of-range values make `struct.pack` raise in
Python, a case none of the verified call sites reaches). -/

/-- Little-endian 16-bit encoding (`struct.pack` format `<H`). -/
def u16le (n : Nat) : List Nat := [n % 256, n / 256 % 256]

/-- Little-endian 32-bit encoding (`struct.pack` format `<I`). -/
def u32le (n : Nat) : List Nat :=
  [n % 256, n / 256 % 256, n / 65536 % 256, n / 16777216 % 256]

/-- Little-endian 64-bit encoding (`struct.pack` format `<Q`). -/
def u64le (n : Nat) : List Nat :=
  [n % 256, n / 256 % 256, n / 65536 % 256, n / 16777216 % 256,
   n / 4294967296 % 256, n / 1099511627776 % 256,
   n / 281474976710656 % 256, n / 72057594037927936 % 256]

/-- Byte at index `i` of a buffer (callers guard the buffer length first,
exactly as the Python parsers check `len(payload)` before unpacking). -/
def byteAt (data : List Nat) (i : Nat) : Nat := data.getD i 0

/-- Little-endian 16-bit read at offset `i` (`struct.unpack` format `<H`). -/
def readU16 (data : List Nat) (i : Nat) : Nat :=
  byteAt data i + 256 * byteAt data (i + 1)

/-- Little-endian 32-bit read at offset `i` (`struct.unpack` format `<I`). -/
def readU32 (data : List Nat) (i : Nat) : Nat :=
  byteAt data i + 256 * byteAt data (i + 1) + 65536 * byteAt data (i + 2)
    + 16777216 * byteAt data (i + 3)

/-- Python slice `data[a:b]` (clamped to the actual buffer length). -/
def pySlice (data : List Nat) (a b : Nat) : List Nat :=
  (data.drop a).take (b - a)

/-- Strip trailing zero bytes, as `bytes.rstrip(b'\x00')` does. -/
def rstripZeros (l : List Nat) : List Nat :=
  (l.reverse.dropWhile (fun b => b == 0)).reverse

/-! ## Serial strings

`parse_lifx_header` renders the first six target bytes as a colon-separated
lowercase hex string (`':'.join(f'{b:02x}' for b in target[0:6])`). -/

/-- Lowercase hex digit for a value below 16. -/
def hexDigit (n : Nat) : Char :=
  if n < 10 then Char.ofNat (48 + n) else Char.ofNat (87 + n)

/-- Two-digit lowercase hex rendering of a byte (`f'{b:02x}'`). -/
def hex2 (b : Nat) : String :=
  String.mk [hexDigit (b / 16 % 16), hexDigit (b % 16)]

/-- Serial string derived from a target field's first six bytes. -/
def serialOfTarget (target : List Nat) : String :=
  String.intercalate ":" ((target.take 6).map hex2)

/-! ## HSBK colors (`lifx_protocol.py`, class `HSBK`) -/

/-- HSBK color representation (16-bit channels, `kelvin` in 1500-9000). -/
structure HSBK where
  hue : Nat := 0
  saturation : Nat := 0
  brightness : Nat := 65535
  kelvin : Nat := 3500
deriving Repr, DecidableEq

/-- `HSBK.to_bytes`: `struct.pack('<HHHH', hue, saturation, brightness, kelvin)`. -/
def HSBK.to_bytes (c : HSBK) : List Nat :=
  u16le c.hue ++ u16le c.saturation ++ u16le c.brightness ++ u16le c.kelvin

/-! ## Devices (`lifx_protocol.py`, dataclass `LIFXDevice`) -/

/-- A discovered LIFX device with its last-known state. -/
structure LIFXDevice where
  ip_address : String
  port : Nat
  serial : String
  service : Nat
  label : String := ""
  power : Nat := 0
  hue : Nat := 0
  saturation : Nat := 0
  brightness : Nat := 0
  kelvin : Nat := 3500
deriving Repr, DecidableEq

/-- `LIFXDevice.target_bytes`: the six serial bytes followed by two zero
bytes.  The Python property parses the colon-separated serial string back
into its six bytes; the embedding takes those six bytes directly. -/
def target_bytes (serial_bytes : List Nat) : List Nat :=
  serial_bytes ++ [0, 0]

/-! ## Header creation (`create_lifx_header`) -/

/-- `create_lifx_header`: build the 36-byte LIFX protocol header.  Frame
header (size, protocol/flags word, source), frame address (8-byte target,
6 reserved bytes, flags byte, sequence), protocol header (8 reserved bytes,
message type, 2 reserved bytes); all integers little-endian. -/
def create_lifx_header (message_type source : Nat) (target : List Nat)
    (tagged ack_required res_required : Bool)
    (sequence payload_size : Nat) : List Nat :=
  let size := 36 + payload_size
  let protocol_and_flags :=
    PROTOCOL_NUMBER ||| (1 <<< 12) ||| (if tagged then 1 <<< 13 else 0)
  let flags_byte :=
    (if res_required then 1 else 0) ||| (if ack_required then 2 else 0)
  u16le size ++ u16le protocol_and_flags ++ u32le source
    ++ target ++ List.replicate 6 0 ++ [flags_byte % 256, sequence % 256]
    ++ u64le 0 ++ u16le message_type ++ [0, 0]

/-- `create_setcolor_packet`: SetColor (packet 102) = header plus a payload
of one reserved zero byte, the HSBK color, and a 32-bit duration. -/
def create_setcolor_packet (source : Nat) (target : List Nat) (hsbk : HSBK)
    (duration sequence : Nat) (ack_required : Bool) : List Nat :=
  let payload := [0] ++ hsbk.to_bytes ++ u32le duration
  create_lifx_header SETCOLOR_TYPE source target false ack_required false
    sequence payload.length ++ payload

/-! ## Header parsing (`parse_lifx_header`) -/

/-- The dictionary returned by `parse_lifx_header`.  Flag fields are the
extracted bits (0 or 1), exactly as the Python code returns them. -/
structure ParsedHeader where
  size : Nat
  protocol : Nat
  addressable : Nat
  tagged : Nat
  origin : Nat
  source : Nat
  target : List Nat
  serial : String
  res_required : Nat
  ack_required : Nat
  sequence : Nat
  type : Nat
  payload : List Nat
deriving Repr, DecidableEq

/-- `parse_lifx_header`: reject buffers shorter than 36 bytes, otherwise
extract every header field; the payload is the slice `data[36:size]` when
the declared size exceeds 36 and empty otherwise. -/
def parse_lifx_header (data : List Nat) : Option ParsedHeader :=
  if data.length < 36 then none
  else
    match data with
    | d0 :: d1 :: d2 :: d3 :: d4 :: d5 :: d6 :: d7 ::
      t0 :: t1 :: t2 :: t3 :: t4 :: t5 :: t6 :: t7 ::
      _r0 :: _r1 :: _r2 :: _r3 :: _r4 :: _r5 :: fb :: sq ::
      _p0 :: _p1 :: _p2 :: _p3 :: _p4 :: _p5 :: _p6 :: _p7 ::
      m0 :: m1 :: _ra :: _rb :: _rest =>
      let size := d0 + 256 * d1
      let protocol_flags := d2 + 256 * d3
      let source := d4 + 256 * d5 + 65536 * d6 + 16777216 * d7
      let target := [t0, t1, t2, t3, t4, t5, t6, t7]
      some
        { size := size
          protocol := protocol_flags &&& 0x0FFF
          addressable := (protocol_flags >>> 12) &&& 1
          tagged := (protocol_flags >>> 13) &&& 1
          origin := (protocol_flags >>> 14) &&& 3
          source := source
          target := target
          serial := serialOfTarget target
          res_required := fb &&& 1
          ack_required := (fb >>> 1) &&& 1
          sequence := sq
          type := m0 + 256 * m1
          payload := if size > 36 then pySlice data 36 size else [] }
    | _ => none

/-! ## Per-message-type payload parsers (`lifx_protocol.py`) -/

/-- `parse_state_service`: StateService (packet 3) payload, a service byte
followed by a 32-bit port.  Fails on payloads shorter than 5 bytes. -/
def parse_state_service (payload : List Nat) : Option (Nat × Nat) :=
  if payload.length < 5 then none
  else some (byteAt payload 0, readU32 payload 1)

/-- The dictionary returned by `parse_light_state`.  The label is kept as
its raw bytes with trailing zeros stripped; the Python UTF-8 decode uses
`errors='replace'` and therefore never fails, so it does not affect any
control flow. -/
structure LightState where
  hue : Nat
  saturation : Nat
  brightness : Nat
  kelvin : Nat
  power : Nat
  label : List Nat
deriving Repr, DecidableEq

/-- `parse_light_state`: LightState (packet 107) payload - HSBK at offset 0,
power at offset 10, a 32-byte label field at offset 12.  Fails on payloads
shorter than 52 bytes. -/
def parse_light_state (payload : List Nat) : Option LightState :=
  if payload.length < 52 then none
  else
    some
      { hue := readU16 payload 0
        saturation := readU16 payload 2
        brightness := readU16 payload 4
        kelvin := readU16 payload 6
        power := readU16 payload 10
        label := rstripZeros (pySlice payload 12 44) }

/-- One per-zone color record as returned inside multizone state payloads. -/
structure ZoneColor where
  index : Nat
  hue : Nat
  saturation : Nat
  brightness : Nat
  kelvin : Nat
deriving Repr, DecidableEq

/-- The `for i in range(min(colors_count, 82))` loop body of
`parse_state_extended_color_zones`: read consecutive 8-byte color records
starting at offset `5 + i * 8`, stopping (Python `break`) at the first
record that is not fully contained in the payload. -/
def readZonesFrom (payload : List Nat) (zone_index : Nat) :
    Nat → Nat → List ZoneColor
  | _, 0 => []
  | i, n + 1 =>
    let offset := 5 + i * 8
    if offset + 8 > payload.length then []
    else
      { index := zone_index + i
        hue := readU16 payload offset
        saturation := readU16 payload (offset + 2)
        brightness := readU16 payload (offset + 4)
        kelvin := readU16 payload (offset + 6) } ::
        readZonesFrom payload zone_index (i + 1) n

/-- The dictionary returned by `parse_state_extended_color_zones`. -/
structure ExtendedColorZones where
  zones_count : Nat
  zone_index : Nat
  colors_count : Nat
  zones : List ZoneColor
deriving Repr, DecidableEq

/-- `parse_state_extended_color_zones`: StateExtendedColorZones (packet 512)
payload - two 16-bit counters, a `colors_count` byte, then up to
`min(colors_count, 82)` 8-byte color records, truncated at the first record
not fully contained in the payload. -/
def parse_state_extended_color_zones (payload : List Nat) :
    Option ExtendedColorZones :=
  if payload.length < 5 then none
  else
    let zones_count := readU16 payload 0
    let zone_index := readU16 payload 2
    let colors_count := byteAt payload 4
    some
      { zones_count := zones_count
        zone_index := zone_index
        colors_count := colors_count
        zones := readZonesFrom payload zone_index 0 (min colors_count 82) }

/-- Little-endian 64-bit read at offset `i` (`struct.unpack` format `<Q`). -/
def readU64 (data : List Nat) (i : Nat) : Nat :=
  byteAt data i + 256 * byteAt data (i + 1) + 65536 * byteAt data (i + 2)
    + 16777216 * byteAt data (i + 3) + 4294967296 * byteAt data (i + 4)
    + 1099511627776 * byteAt data (i + 5)
    + 281474976710656 * byteAt data (i + 6)
    + 72057594037927936 * byteAt data (i + 7)

/-- Little-endian signed 16-bit read at offset `i` (`struct.unpack` format
`<h`): values of 32768 and above represent negatives. -/
def readS16 (data : List Nat) (i : Nat) : ℤ :=
  if readU16 data i < 32768 then (readU16 data i : ℤ)
  else (readU16 data i : ℤ) - 65536

/-- Render a byte list as a plain lowercase hex string (`bytes.hex()`). -/
def bytesHex (l : List Nat) : String :=
  String.join (l.map hex2)

/-- `parse_state_label`: StateLabel (packet 25) payload, a 32-byte label
field.  Fails on payloads shorter than 32 bytes.  As for `parse_light_state`,
the label is kept as its trailing-zero-stripped raw bytes; the Python UTF-8
decode uses `errors='replace'` and never fails. -/
def parse_state_label (payload : List Nat) : Option (List Nat) :=
  if payload.length < 32 then none
  else some (rstripZeros (pySlice payload 0 32))

/-- The dictionary returned by `parse_state_version`. -/
structure StateVersion where
  vendor : Nat
  product : Nat
deriving Repr, DecidableEq

/-- `parse_state_version`: StateVersion (packet 33) payload - two 32-bit
identifiers.  Fails on payloads shorter than 12 bytes. -/
def parse_state_version (payload : List Nat) : Option StateVersion :=
  if payload.length < 12 then none
  else some { vendor := readU32 payload 0, product := readU32 payload 4 }

/-- The dictionary returned by `parse_state_hostfirmware`. -/
structure StateHostFirmware where
  build : Nat
  version_major : Nat
  version_minor : Nat
deriving Repr, DecidableEq

/-- `parse_state_hostfirmware`: StateHostFirmware (packet 15) payload - a
64-bit build timestamp and the minor/major version pair at offset 16.
Fails on payloads shorter than 20 bytes. -/
def parse_state_hostfirmware (payload : List Nat) : Option StateHostFirmware :=
  if payload.length < 20 then none
  else
    some { build := readU64 payload 0, version_major := readU16 payload 18,
           version_minor := readU16 payload 16 }

/-- The dictionary returned by `parse_state_wifiinfo`.  The signal is an
IEEE-754 float on the wire; the embedding keeps its little-endian 32-bit
pattern, since interpreting the bits as a float never fails and cannot
affect the parser's control flow. -/
structure StateWifiInfo where
  signal : Nat
deriving Repr, DecidableEq

/-- `parse_state_wifiinfo`: StateWifiInfo (packet 17) payload.  Fails on
payloads shorter than 14 bytes. -/
def parse_state_wifiinfo (payload : List Nat) : Option StateWifiInfo :=
  if payload.length < 14 then none
  else some { signal := readU32 payload 0 }

/-- The dictionary returned by `parse_state_info`. -/
structure StateInfo where
  time : Nat
  uptime : Nat
  downtime : Nat
deriving Repr, DecidableEq

/-- `parse_state_info`: StateInfo (packet 35) payload - three 64-bit
nanosecond counters.  Fails on payloads shorter than 24 bytes. -/
def parse_state_info (payload : List Nat) : Option StateInfo :=
  if payload.length < 24 then none
  else
    some { time := readU64 payload 0, uptime := readU64 payload 8,
           downtime := readU64 payload 16 }

/-- The dictionary returned by `parse_state_location`. -/
structure StateLocation where
  location_id : String
  label : List Nat
  updated_at : Nat
deriving Repr, DecidableEq

/-- `parse_state_location`: StateLocation (packet 50) payload - a 16-byte
identifier rendered as hex, a 32-byte label, a 64-bit timestamp.  Fails on
payloads shorter than 56 bytes. -/
def parse_state_location (payload : List Nat) : Option StateLocation :=
  if payload.length < 56 then none
  else
    some { location_id := bytesHex (pySlice payload 0 16),
           label := rstripZeros (pySlice payload 16 48),
           updated_at := readU64 payload 48 }

/-- The dictionary returned by `parse_state_group`. -/
structure StateGroup where
  group_id : String
  label : List Nat
  updated_at : Nat
deriving Repr, DecidableEq

/-- `parse_state_group`: StateGroup (packet 53) payload - same layout as
StateLocation.  Fails on payloads shorter than 56 bytes. -/
def parse_state_group (payload : List Nat) : Option StateGroup :=
  if payload.length < 56 then none
  else
    some { group_id := bytesHex (pySlice payload 0 16),
           label := rstripZeros (pySlice payload 16 48),
           updated_at := readU64 payload 48 }

/-- The dictionary returned by `parse_state_infrared`. -/
structure StateInfrared where
  brightness : Nat
deriving Repr, DecidableEq

/-- `parse_state_infrared`: StateInfrared (packet 121) payload - a 16-bit
brightness.  Fails on payloads shorter than 2 bytes. -/
def parse_state_infrared (payload : List Nat) : Option StateInfrared :=
  if payload.length < 2 then none
  else some { brightness := readU16 payload 0 }

/-- The dictionary returned by `parse_state_zone` and
`parse_state_multizone`. -/
structure ZonesState where
  zones_count : Nat
  zone_index : Nat
  zones : List ZoneColor
deriving Repr, DecidableEq

/-- `parse_state_zone`: StateZone (packet 503) payload - a single zone
record.  Fails on payloads shorter than 10 bytes. -/
def parse_state_zone (payload : List Nat) : Option ZonesState :=
  if payload.length < 10 then none
  else
    some { zones_count := byteAt payload 0, zone_index := byteAt payload 1,
           zones := [{ index := byteAt payload 1, hue := readU16 payload 2,
                       saturation := readU16 payload 4,
                       brightness := readU16 payload 6,
                       kelvin := readU16 payload 8 }] }

/-- The `for i in range(8)` loop body of `parse_state_multizone`: read
consecutive 8-byte color records starting at offset `2 + i * 8`, stopping
(Python `break`) at the first record not fully contained in the payload. -/
def readMultizoneRecords (payload : List Nat) (zone_index : Nat) :
    Nat → Nat → List ZoneColor
  | _, 0 => []
  | i, n + 1 =>
    let offset := 2 + i * 8
    if offset + 8 > payload.length then []
    else
      { index := zone_index + i
        hue := readU16 payload offset
        saturation := readU16 payload (offset + 2)
        brightness := readU16 payload (offset + 4)
        kelvin := readU16 payload (offset + 6) } ::
        readMultizoneRecords payload zone_index (i + 1) n

/-- `parse_state_multizone`: StateMultiZone (packet 506) payload - eight
bound-checked zone records.  Fails on payloads shorter than 66 bytes. -/
def parse_state_multizone (payload : List Nat) : Option ZonesState :=
  if payload.length < 66 then none
  else
    some { zones_count := byteAt payload 0, zone_index := byteAt payload 1,
           zones := readMultizoneRecords payload (byteAt payload 1) 0 8 }

/-- The `effect_names.get(effect_type, f'UNKNOWN(..)')` lookup of
`parse_state_multizone_effect`. -/
def multizone_effect_name (t : Nat) : String :=
  if t = 0 then "OFF"
  else if t = 1 then "MOVE"
  else "UNKNOWN(" ++ Nat.repr t ++ ")"

/-- The dictionary returned by `parse_state_multizone_effect`. -/
structure MultiZoneEffectState where
  instanceid : Nat
  type : Nat
  type_name : String
  speed : Nat
  duration : Nat
deriving Repr, DecidableEq

/-- `parse_state_multizone_effect`: StateMultiZoneEffect (packet 509)
payload.  Fails on payloads shorter than 59 bytes. -/
def parse_state_multizone_effect (payload : List Nat) :
    Option MultiZoneEffectState :=
  if payload.length < 59 then none
  else
    some { instanceid := readU32 payload 0, type := byteAt payload 4,
           type_name := multizone_effect_name (byteAt payload 4),
           speed := readU32 payload 7, duration := readU64 payload 11 }

/-- One tile record of `parse_state_device_chain`.  The accelerometer
components are signed 16-bit values; `user_x`/`user_y` are IEEE-754 floats
on the wire, kept as their 32-bit patterns (the float interpretation never
fails and cannot affect control flow). -/
structure TileRecord where
  index : Nat
  accel_x : ℤ
  accel_y : ℤ
  accel_z : ℤ
  user_x : Nat
  user_y : Nat
  width : Nat
  height : Nat
  vendor : Nat
  product : Nat
  version : Nat
deriving Repr, DecidableEq

/-- The `for i in range(16)` loop of `parse_state_device_chain`: read
consecutive 55-byte tile records starting at offset `1 + i * 55`, stopping
(Python `break`) at the first record not fully contained in the payload,
and keeping only tiles with a positive width or height. -/
def readTileRecords (payload : List Nat) : Nat → Nat → List TileRecord
  | _, 0 => []
  | i, n + 1 =>
    let offset := 1 + i * 55
    if offset + 55 > payload.length then []
    else
      let tile_data := pySlice payload offset (offset + 55)
      if byteAt tile_data 16 > 0 ∨ byteAt tile_data 17 > 0 then
        { index := i
          accel_x := readS16 tile_data 0
          accel_y := readS16 tile_data 2
          accel_z := readS16 tile_data 4
          user_x := readU32 tile_data 8
          user_y := readU32 tile_data 12
          width := byteAt tile_data 16
          height := byteAt tile_data 17
          vendor := readU32 tile_data 19
          product := readU32 tile_data 23
          version := readU32 tile_data 27 } ::
          readTileRecords payload (i + 1) n
      else readTileRecords payload (i + 1) n

/-- The dictionary returned by `parse_state_device_chain`. -/
structure DeviceChainState where
  start_index : Nat
  total_count : Nat
  tiles : List TileRecord
deriving Repr, DecidableEq

/-- `parse_state_device_chain`: StateDeviceChain (packet 702) payload - a
start index, up to 16 bound-checked 55-byte tile records, and the total
count from byte 881.  Fails on payloads shorter than 882 bytes. -/
def parse_state_device_chain (payload : List Nat) : Option DeviceChainState :=
  if payload.length < 882 then none
  else
    let tiles := readTileRecords payload 0 16
    some { start_index := byteAt payload 0,
           total_count :=
             if 881 < payload.length then byteAt payload 881
             else tiles.length,
           tiles := tiles }

/-- The `for i in range(64)` loop of `parse_state64`: read consecutive
8-byte HSBK records starting at offset `5 + i * 8`, stopping (Python
`break`) at the first record not fully contained in the payload. -/
def readTileColors (payload : List Nat) : Nat → Nat → List HSBK
  | _, 0 => []
  | i, n + 1 =>
    let offset := 5 + i * 8
    if offset + 8 > payload.length then []
    else
      { hue := readU16 payload offset
        saturation := readU16 payload (offset + 2)
        brightness := readU16 payload (offset + 4)
        kelvin := readU16 payload (offset + 6) } ::
        readTileColors payload (i + 1) n

/-- The dictionary returned by `parse_state64`. -/
structure State64 where
  tile_index : Nat
  x : Nat
  y : Nat
  width : Nat
  colors : List HSBK
deriving Repr, DecidableEq

/-- `parse_state64`: State64 (packet 711) payload - tile coordinates and
64 bound-checked pixel colors.  Fails on payloads shorter than 517 bytes. -/
def parse_state64 (payload : List Nat) : Option State64 :=
  if payload.length < 517 then none
  else
    some { tile_index := byteAt payload 0, x := byteAt payload 2,
           y := byteAt payload 3, width := byteAt payload 4,
           colors := readTileColors payload 0 64 }

/-- The `effect_names.get(effect_type, f'UNKNOWN(..)')` lookup of
`parse_state_tile_effect`. -/
def tile_effect_name (t : Nat) : String :=
  if t = 0 then "OFF"
  else if t = 1 then "RESERVED1"
  else if t = 2 then "MORPH"
  else if t = 3 then "FLAME"
  else if t = 4 then "RESERVED2"
  else if t = 5 then "SKY"
  else "UNKNOWN(" ++ Nat.repr t ++ ")"

/-- The dictionary returned by `parse_state_tile_effect`. -/
structure TileEffectState where
  instanceid : Nat
  type : Nat
  type_name : String
  speed : Nat
  duration : Nat
deriving Repr, DecidableEq

/-- `parse_state_tile_effect`: StateTileEffect (packet 720) payload.
Fails on payloads shorter than 187 bytes. -/
def parse_state_tile_effect (payload : List Nat) : Option TileEffectState :=
  if payload.length < 187 then none
  else
    some { instanceid := readU32 payload 2, type := byteAt payload 6,
           type_name := tile_effect_name (byteAt payload 6),
           speed := readU32 payload 7, duration := readU64 payload 11 }


/-! ## Device lookup (`lifx_control.py`, `LIFXController.get_device`) -/

/-- Lowercase a character (Python `str.lower` restricted to ASCII, which is
all the source ever feeds it: serials, IP literals, and device labels). -/
def lowerChar (c : Char) : Char :=
  if 65 ≤ c.toNat ∧ c.toNat ≤ 90 then Char.ofNat (c.toNat + 32) else c

/-- Lowercase a string (`str.lower`). -/
def lowerStr (s : String) : String :=
  String.mk (s.data.map lowerChar)

/-- The per-device test performed inside `get_device`'s loop: serial equal
case-insensitively, IP address equal exactly, or label equal
case-insensitively. -/
def device_matches (identifier : String) (d : LIFXDevice) : Bool :=
  lowerStr d.serial == lowerStr identifier
    || d.ip_address == identifier
    || lowerStr d.label == lowerStr identifier

/-- `LIFXController.get_device`: walk the device table in iteration order
and return the first device whose serial (case-insensitively), IP address,
or label (case-insensitively) equals the identifier. -/
def get_device : List LIFXDevice → String → Option LIFXDevice
  | [], _ => none
  | d :: rest, identifier =>
    if lowerStr d.serial == lowerStr identifier then some d
    else if d.ip_address == identifier then some d
    else if lowerStr d.label == lowerStr identifier then some d
    else get_device rest identifier

/-- Case-insensitive substring test on character lists, used to state what
the specification asks of label lookup.  `startsWithChars h n` holds when
`n` is an initial segment of `h`. -/
def startsWithChars : List Char → List Char → Bool
  | _, [] => true
  | [], _ :: _ => false
  | a :: as, b :: bs => a == b && startsWithChars as bs

/-- `containsChars hay needle` holds when `needle` occurs contiguously
inside `hay`. -/
def containsChars : List Char → List Char → Bool
  | [], needle => needle.isEmpty
  | a :: t, needle => startsWithChars (a :: t) needle || containsChars t needle

/-! ## Receive loop (`lifx_control.py`, `LIFXController._send_and_receive`)

The socket receive loop is embedded by passing the list of datagrams (with
their source IP) that arrive before the deadline.  The loop parses each
datagram, keeps headers matching `wait_for_type` (all parseable headers
when `wait_for_type` is `none`), stops after the first match when
`wait_for_type` is set, and never collects more than `max_responses`. -/

def recvLoop (wait_for_type : Option Nat) (max_responses : Nat) :
    List (List Nat × String) → List (ParsedHeader × String) →
    List (ParsedHeader × String)
  | [], acc => acc
  | (data, addr) :: rest, acc =>
    if max_responses ≤ acc.length then acc
    else
      match parse_lifx_header data with
      | none => recvLoop wait_for_type max_responses rest acc
      | some header =>
        match wait_for_type with
        | none => recvLoop wait_for_type max_responses rest (acc ++ [(header, addr)])
        | some t =>
          if header.type = t then acc ++ [(header, addr)]
          else recvLoop wait_for_type max_responses rest acc

/-- `_send_and_receive` as seen by its callers: the responses collected
from the datagrams arriving before the timeout. -/
def send_and_receive (incoming : List (List Nat × String))
    (wait_for_type : Option Nat) : List (ParsedHeader × String) :=
  recvLoop wait_for_type 100 incoming []

/-! ## Acknowledged color command (`lifx_control.py`, `LIFXController.set_color`) -/

/-- `LIFXController.set_color`: send a SetColor packet and wait for an
Acknowledgement (packet 45).  On at least one acknowledgement the device's
stored color fields are overwritten with the sent values and the call
returns `true`; otherwise the device is untouched and the call returns
`false`. -/
def set_color (device : LIFXDevice) (hsbk : HSBK)
    (incoming : List (List Nat × String)) : Bool × LIFXDevice :=
  let responses := send_and_receive incoming (some ACKNOWLEDGEMENT_TYPE)
  if responses.isEmpty then (false, device)
  else
    (true,
      { device with
          hue := hsbk.hue
          saturation := hsbk.saturation
          brightness := hsbk.brightness
          kelvin := hsbk.kelvin })

/-! ## Discovery response handling

(`lifx_control.py`, `LIFXController.discover` response loop, and the
identical loop in `lifx_scanner.py`, `scan_network`.) -/

/-- Processing of one discovery response: skip non-StateService packets,
skip payloads that fail to parse or advertise a non-UDP service, and
otherwise add one device keyed by the header's serial unless that serial
is already known. -/
def discoverStep (discovered : List (String × LIFXDevice))
    (resp : ParsedHeader × String) : List (String × LIFXDevice) :=
  let header := resp.1
  let addr := resp.2
  if header.type ≠ STATESERVICE_TYPE then discovered
  else
    match parse_state_service header.payload with
    | none => discovered
    | some (service, port) =>
      if service ≠ SERVICE_UDP then discovered
      else if (discovered.lookup header.serial).isSome then discovered
      else
        discovered ++
          [(header.serial,
            { ip_address := addr, port := port, serial := header.serial,
              service := service })]

/-! ## Degree conversions (`lifx_protocol.py`, `HSBK.from_degrees`)

`from_degrees` computes with Python floats; every Python float value is a
rational number, so the numeric computation is embedded over `ℚ`.  Python's
built-in `round` rounds halves to the nearest even integer; away from exact
halves it agrees with Mathlib's `round`. -/

/-- Python's `round`: nearest integer, ties to the even neighbour. -/
def pyround (x : ℚ) : ℤ :=
  if Int.fract x = 1 / 2 then (if Even ⌊x⌋ then ⌊x⌋ else ⌊x⌋ + 1)
  else round x

/-- The hue channel of `HSBK.from_degrees`:
`int(round(0x10000 * hue / 360)) % 0x10000`. -/
def from_degrees_hue (hue : ℚ) : ℤ :=
  pyround (65536 * hue / 360) % 65536

/-- The saturation channel of `HSBK.from_degrees`:
`int(round(0xFFFF * saturation))`. -/
def from_degrees_sat (saturation : ℚ) : ℤ :=
  pyround (65535 * saturation)

/-- The brightness channel of `HSBK.from_degrees`:
`int(round(0xFFFF * brightness))`. -/
def from_degrees_bright (brightness : ℚ) : ℤ :=
  pyround (65535 * brightness)

/-- Modelled from the spec: the inverse degree conversion `toDegrees` is not
part of the repository's source; per the specification's color model, the
stored 16-bit hue maps back to degrees on the 65536-step scale of 360°. -/
def to_degrees_hue (stored : ℤ) : ℚ :=
  (stored : ℚ) * 360 / 65536

/-- Modelled from the spec: the inverse fraction conversion for saturation
and brightness, which are stored on a 65535 scale of 100%. -/
def to_fraction (stored : ℤ) : ℚ :=
  (stored : ℚ) / 65535

/-! Concrete fixtures used to evaluate the verified statements on explicit
inputs. -/

/-- A device whose label contains the word `Kitchen`. -/
def kitchenDevice : LIFXDevice :=
  { ip_address := "10.0.0.5", port := 56700, serial := "d0:73:d5:01:02:03",
    service := 1, label := "Kitchen Light" }

/-- A device used to exercise `set_color`. -/
def sampleDevice : LIFXDevice :=
  { ip_address := "10.0.0.7", port := 56700, serial := "d0:73:d5:01:02:03",
    service := 1, label := "Desk" }

/-- An Acknowledgement (packet 45) datagram as a device would send it. -/
def sampleAckDatagram : List Nat :=
  create_lifx_header ACKNOWLEDGEMENT_TYPE 2 (List.replicate 8 0)
    false false false 0 0

/-- A parsed StateService response advertising the UDP service on the
standard port. -/
def sampleUdpHeader : ParsedHeader :=
  { size := 41, protocol := 1024, addressable := 1, tagged := 0, origin := 0,
    source := 2, target := [170, 187, 204, 221, 238, 255, 0, 0],
    serial := "aa:bb:cc:dd:ee:ff", res_required := 0, ack_required := 0,
    sequence := 0, type := 3, payload := [1, 124, 221, 0, 0] }

/-- A parsed StateService response advertising a reserved (non-UDP)
service. -/
def sampleReservedHeader : ParsedHeader :=
  { size := 41, protocol := 1024, addressable := 1, tagged := 0, origin := 0,
    source := 2, target := [170, 187, 204, 221, 238, 255, 0, 0],
    serial := "aa:bb:cc:dd:ee:ff", res_required := 0, ack_required := 0,
    sequence := 0, type := 3, payload := [2, 124, 221, 0, 0] }

/-- A StateExtendedColorZones payload declaring three colors but carrying
only two complete 8-byte records (plus three stray bytes). -/
def sampleExtZonesPayload : List Nat :=
  [7, 0, 1, 0, 3] ++ [1, 0, 2, 0, 3, 0, 4, 0] ++ [5, 0, 6, 0, 7, 0, 8, 0]
    ++ [9, 9, 9]


/-! Helper lemmas shared by the claim theorems below. -/

theorem readZonesFrom_length (payload : List Nat) (zi : Nat) :
    ∀ n i, (readZonesFrom payload zi i n).length =
      min n ((payload.length - 5) / 8 - i) := by
  intro n
  induction n with
  | zero => intro i; simp [readZonesFrom]
  | succ k ih =>
    intro i
    simp only [readZonesFrom]
    split
    · rename_i hgt
      simp only [List.length_nil]
      omega
    · rename_i hle
      simp only [List.length_cons, ih (i + 1)]
      omega

theorem get_device_cons (d : LIFXDevice) (rest : List LIFXDevice)
    (identifier : String) :
    get_device (d :: rest) identifier =
      if device_matches identifier d then some d
      else get_device rest identifier := by
  simp only [get_device, device_matches]
  by_cases h1 : (lowerStr d.serial == lowerStr identifier) = true <;>
  by_cases h2 : (d.ip_address == identifier) = true <;>
  by_cases h3 : (lowerStr d.label == lowerStr identifier) = true <;>
  simp [h1, h2, h3]

theorem recvLoop_wait_nonempty_iff (t : Nat) (incoming : List (List Nat × String)) :
    recvLoop (some t) 100 incoming [] ≠ [] ↔
      ∃ p ∈ incoming, ∃ h, parse_lifx_header p.1 = some h ∧ h.type = t := by
  induction incoming with
  | nil => simp [recvLoop]
  | cons p rest ih =>
    obtain ⟨data, addr⟩ := p
    simp only [recvLoop, List.length_nil]
    rw [if_neg (by omega)]
    cases hp : parse_lifx_header data with
    | none => simpa [hp] using ih
    | some h =>
      by_cases ht : h.type = t
      · simp [hp, ht]
      · simp [hp, ht, ih]

theorem abs_sub_pyround (x : ℚ) : |x - pyround x| ≤ 1 / 2 := by
  unfold pyround
  split
  · rename_i htie
    split
    · rw [Int.self_sub_floor, htie, abs_of_nonneg (by norm_num)]
    · push_cast
      have hfl : x - (⌊x⌋ : ℚ) = 1 / 2 := by
        rw [Int.self_sub_floor, htie]
      rw [show x - ((⌊x⌋ : ℚ) + 1) = (x - (⌊x⌋ : ℚ)) - 1 by ring, hfl]
      rw [show (1 : ℚ) / 2 - 1 = -(1 / 2) by norm_num, abs_neg,
        abs_of_nonneg (by norm_num)]
  · exact abs_sub_round x

/-- C1. Header encode/decode round-trip: for every message type below
65536, 32-bit source, 8-byte target, flag combination, sequence below 256,
and payload with `36 + payload.length ≤ 65535`, parsing the created header
concatenated with the payload succeeds and returns the same message type,
source, target, tagged / ack_required / res_required bits, sequence, a size
field equal to `36 + payload.length`, and exactly the original payload. -/
theorem header_encode_decode_roundtrip
    (message_type source sequence : Nat) (target payload : List Nat)
    (tagged ack_required res_required : Bool)
    (hmt : message_type < 65536) (hsrc : source < 4294967296)
    (hseq : sequence < 256) (htarget : target.length = 8)
    (hsize : 36 + payload.length ≤ 65535) :
    (parse_lifx_header
        (create_lifx_header message_type source target tagged ack_required
          res_required sequence payload.length ++ payload)).map
        (fun h => (h.type, h.source, h.target, h.tagged, h.ack_required,
          h.res_required, h.sequence, h.size, h.payload))
      = some (message_type, source, target,
          (if tagged then 1 else 0), (if ack_required then 1 else 0),
          (if res_required then 1 else 0), sequence,
          36 + payload.length, payload) := by
  obtain ⟨t0, target, rfl⟩ := List.exists_of_length_succ target
    (show target.length = target.length - 1 + 1 by omega)
  obtain ⟨t1, target, rfl⟩ := List.exists_of_length_succ target
    (show target.length = target.length - 1 + 1 by
      simp only [List.length_cons] at htarget; omega)
  obtain ⟨t2, target, rfl⟩ := List.exists_of_length_succ target
    (show target.length = target.length - 1 + 1 by
      simp only [List.length_cons] at htarget; omega)
  obtain ⟨t3, target, rfl⟩ := List.exists_of_length_succ target
    (show target.length = target.length - 1 + 1 by
      simp only [List.length_cons] at htarget; omega)
  obtain ⟨t4, target, rfl⟩ := List.exists_of_length_succ target
    (show target.length = target.length - 1 + 1 by
      simp only [List.length_cons] at htarget; omega)
  obtain ⟨t5, target, rfl⟩ := List.exists_of_length_succ target
    (show target.length = target.length - 1 + 1 by
      simp only [List.length_cons] at htarget; omega)
  obtain ⟨t6, target, rfl⟩ := List.exists_of_length_succ target
    (show target.length = target.length - 1 + 1 by
      simp only [List.length_cons] at htarget; omega)
  obtain ⟨t7, target, rfl⟩ := List.exists_of_length_succ target
    (show target.length = target.length - 1 + 1 by
      simp only [List.length_cons] at htarget; omega)
  have htnil : target = [] := by
    simp only [List.length_cons] at htarget
    exact List.eq_nil_of_length_eq_zero (by omega)
  subst htnil
  cases tagged <;> cases ack_required <;> cases res_required <;>
    simp only [create_lifx_header, u16le, u32le, u64le, PROTOCOL_NUMBER,
      List.replicate, List.cons_append, List.nil_append, List.append_assoc,
      if_true, if_false, Bool.false_eq_true, ite_false, ite_true] <;>
    simp only [parse_lifx_header] <;>
    (rw [if_neg (by simp only [List.length_cons]; omega)]) <;>
    (have hS : (36 + payload.length) % 256 +
        256 * ((36 + payload.length) / 256 % 256) = 36 + payload.length := by
      omega) <;>
    rw [hS] <;>
    simp only [Option.map_some', Option.some.injEq, Prod.mk.injEq] <;>
    and_intros <;>
    first
      | trivial
      | omega
      | decide
      | (rcases Nat.eq_zero_or_pos payload.length with hL | hL
         · have hnil : payload = [] := List.eq_nil_of_length_eq_zero hL
           subst hnil
           simp
         · rw [if_pos (by omega)]
           show List.take (36 + payload.length - 36) payload = payload
           have h36 : 36 + payload.length - 36 = payload.length := by omega
           rw [h36, List.take_length])

/-- Witness for C1 at a concrete header and payload. -/
theorem header_encode_decode_roundtrip_witness :
    (parse_lifx_header
        (create_lifx_header 102 305419896 [208, 115, 213, 1, 2, 3, 0, 0]
          true true false 7 3 ++ [9, 8, 7])).map
        (fun h => (h.type, h.source, h.target, h.tagged, h.ack_required,
          h.res_required, h.sequence, h.size, h.payload))
      = some (102, 305419896, [208, 115, 213, 1, 2, 3, 0, 0],
          1, 1, 0, 7, 39, [9, 8, 7]) :=
  header_encode_decode_roundtrip 102 305419896 7
    [208, 115, 213, 1, 2, 3, 0, 0] [9, 8, 7] true true false
    (by decide) (by decide) (by decide) (by decide) (by decide)

/-- C2. Concrete SetColor encoding: with HSBK `(0, 65535, 65535, 3500)`
(hue 0°, saturation 100%, brightness 100%, kelvin 3500), duration 250 ms,
and the serial `d0:73:d5:01:02:03` as target, `create_setcolor_packet`
produces 49 bytes whose bytes 32-33 are the little-endian SetColor type 102
and whose 13-byte payload is one reserved zero byte, the HSBK as four
little-endian 16-bit values, and a 4-byte little-endian duration of 250. -/
theorem setcolor_packet_concrete (source sequence : Nat) (ack_required : Bool) :
    (create_setcolor_packet source
        (target_bytes [0xd0, 0x73, 0xd5, 0x01, 0x02, 0x03])
        ⟨0, 65535, 65535, 3500⟩ 250 sequence ack_required).length = 49 ∧
    pySlice (create_setcolor_packet source
        (target_bytes [0xd0, 0x73, 0xd5, 0x01, 0x02, 0x03])
        ⟨0, 65535, 65535, 3500⟩ 250 sequence ack_required) 32 34
      = u16le SETCOLOR_TYPE ∧
    (create_setcolor_packet source
        (target_bytes [0xd0, 0x73, 0xd5, 0x01, 0x02, 0x03])
        ⟨0, 65535, 65535, 3500⟩ 250 sequence ack_required).drop 36
      = [0, 0, 0, 255, 255, 255, 255, 172, 13, 250, 0, 0, 0] :=
  ⟨rfl, rfl, rfl⟩

/-- Witness for C2 at a concrete source, sequence, and ack flag. -/
theorem setcolor_packet_concrete_witness :
    (create_setcolor_packet 2 (target_bytes [0xd0, 0x73, 0xd5, 0x01, 0x02, 0x03])
        ⟨0, 65535, 65535, 3500⟩ 250 5 true).length = 49 ∧
    pySlice (create_setcolor_packet 2
        (target_bytes [0xd0, 0x73, 0xd5, 0x01, 0x02, 0x03])
        ⟨0, 65535, 65535, 3500⟩ 250 5 true) 32 34 = u16le SETCOLOR_TYPE ∧
    (create_setcolor_packet 2 (target_bytes [0xd0, 0x73, 0xd5, 0x01, 0x02, 0x03])
        ⟨0, 65535, 65535, 3500⟩ 250 5 true).drop 36
      = [0, 0, 0, 255, 255, 255, 255, 172, 13, 250, 0, 0, 0] :=
  setcolor_packet_concrete 2 5 true

/-- C3, counterexample: a 36-byte buffer whose declared size is 100 parses
successfully with an empty payload (0 bytes), not the `100 - 36 = 64` bytes
the claim asserts for declared sizes exceeding the buffer length. -/
theorem parse_header_oversized_declared_cex :
    (100 :: 0 :: List.replicate 34 0 : List Nat).length = 36 ∧
    (parse_lifx_header (100 :: 0 :: List.replicate 34 0)).map
        (fun h => (h.size, h.payload.length)) = some (100, 0) ∧
    (0 : Nat) ≠ 100 - 36 :=
  ⟨by decide, by decide, by decide⟩

/-- C3, amended: buffers shorter than 36 bytes fail to parse; buffers of at
least 36 bytes parse successfully, the payload is the slice
`data[36:declared_size]` clamped to the actual buffer, so its length is
`min declared_size data.length - 36` (zero when the declared size is at
most 36) rather than always `declared_size - 36`. -/
theorem parse_header_size_contract (data : List Nat) :
    (data.length < 36 → parse_lifx_header data = none) ∧
    (36 ≤ data.length → ∃ h, parse_lifx_header data = some h ∧
        h.size = byteAt data 0 + 256 * byteAt data 1 ∧
        h.payload = (data.drop 36).take (h.size - 36) ∧
        h.payload.length = min h.size data.length - 36) := by
  constructor
  · intro hshort
    simp [parse_lifx_header, hshort]
  · intro hlen
    obtain ⟨b0, data, rfl⟩ := List.exists_of_length_succ data (show data.length = data.length - 1 + 1 by omega)
    obtain ⟨b1, data, rfl⟩ := List.exists_of_length_succ data (show data.length = data.length - 1 + 1 by simp only [List.length_cons] at hlen; omega)
    obtain ⟨b2, data, rfl⟩ := List.exists_of_length_succ data (show data.length = data.length - 1 + 1 by simp only [List.length_cons] at hlen; omega)
    obtain ⟨b3, data, rfl⟩ := List.exists_of_length_succ data (show data.length = data.length - 1 + 1 by simp only [List.length_cons] at hlen; omega)
    obtain ⟨b4, data, rfl⟩ := List.exists_of_length_succ data (show data.length = data.length - 1 + 1 by simp only [List.length_cons] at hlen; omega)
    obtain ⟨b5, data, rfl⟩ := List.exists_of_length_succ data (show data.length = data.length - 1 + 1 by simp only [List.length_cons] at hlen; omega)
    obtain ⟨b6, data, rfl⟩ := List.exists_of_length_succ data (show data.length = data.length - 1 + 1 by simp only [List.length_cons] at hlen; omega)
    obtain ⟨b7, data, rfl⟩ := List.exists_of_length_succ data (show data.length = data.length - 1 + 1 by simp only [List.length_cons] at hlen; omega)
    obtain ⟨b8, data, rfl⟩ := List.exists_of_length_succ data (show data.length = data.length - 1 + 1 by simp only [List.length_cons] at hlen; omega)
    obtain ⟨b9, data, rfl⟩ := List.exists_of_length_succ data (show data.length = data.length - 1 + 1 by simp only [List.length_cons] at hlen; omega)
    obtain ⟨b10, data, rfl⟩ := List.exists_of_length_succ data (show data.length = data.length - 1 + 1 by simp only [List.length_cons] at hlen; omega)
    obtain ⟨b11, data, rfl⟩ := List.exists_of_length_succ data (show data.length = data.length - 1 + 1 by simp only [List.length_cons] at hlen; omega)
    obtain ⟨b12, data, rfl⟩ := List.exists_of_length_succ data (show data.length = data.length - 1 + 1 by simp only [List.length_cons] at hlen; omega)
    obtain ⟨b13, data, rfl⟩ := List.exists_of_length_succ data (show data.length = data.length - 1 + 1 by simp only [List.length_cons] at hlen; omega)
    obtain ⟨b14, data, rfl⟩ := List.exists_of_length_succ data (show data.length = data.length - 1 + 1 by simp only [List.length_cons] at hlen; omega)
    obtain ⟨b15, data, rfl⟩ := List.exists_of_length_succ data (show data.length = data.length - 1 + 1 by simp only [List.length_cons] at hlen; omega)
    obtain ⟨b16, data, rfl⟩ := List.exists_of_length_succ data (show data.length = data.length - 1 + 1 by simp only [List.length_cons] at hlen; omega)
    obtain ⟨b17, data, rfl⟩ := List.exists_of_length_succ data (show data.length = data.length - 1 + 1 by simp only [List.length_cons] at hlen; omega)
    obtain ⟨b18, data, rfl⟩ := List.exists_of_length_succ data (show data.length = data.length - 1 + 1 by simp only [List.length_cons] at hlen; omega)
    obtain ⟨b19, data, rfl⟩ := List.exists_of_length_succ data (show data.length = data.length - 1 + 1 by simp only [List.length_cons] at hlen; omega)
    obtain ⟨b20, data, rfl⟩ := List.exists_of_length_succ data (show data.length = data.length - 1 + 1 by simp only [List.length_cons] at hlen; omega)
    obtain ⟨b21, data, rfl⟩ := List.exists_of_length_succ data (show data.length = data.length - 1 + 1 by simp only [List.length_cons] at hlen; omega)
    obtain ⟨b22, data, rfl⟩ := List.exists_of_length_succ data (show data.length = data.length - 1 + 1 by simp only [List.length_cons] at hlen; omega)
    obtain ⟨b23, data, rfl⟩ := List.exists_of_length_succ data (show data.length = data.length - 1 + 1 by simp only [List.length_cons] at hlen; omega)
    obtain ⟨b24, data, rfl⟩ := List.exists_of_length_succ data (show data.length = data.length - 1 + 1 by simp only [List.length_cons] at hlen; omega)
    obtain ⟨b25, data, rfl⟩ := List.exists_of_length_succ data (show data.length = data.length - 1 + 1 by simp only [List.length_cons] at hlen; omega)
    obtain ⟨b26, data, rfl⟩ := List.exists_of_length_succ data (show data.length = data.length - 1 + 1 by simp only [List.length_cons] at hlen; omega)
    obtain ⟨b27, data, rfl⟩ := List.exists_of_length_succ data (show data.length = data.length - 1 + 1 by simp only [List.length_cons] at hlen; omega)
    obtain ⟨b28, data, rfl⟩ := List.exists_of_length_succ data (show data.length = data.length - 1 + 1 by simp only [List.length_cons] at hlen; omega)
    obtain ⟨b29, data, rfl⟩ := List.exists_of_length_succ data (show data.length = data.length - 1 + 1 by simp only [List.length_cons] at hlen; omega)
    obtain ⟨b30, data, rfl⟩ := List.exists_of_length_succ data (show data.length = data.length - 1 + 1 by simp only [List.length_cons] at hlen; omega)
    obtain ⟨b31, data, rfl⟩ := List.exists_of_length_succ data (show data.length = data.length - 1 + 1 by simp only [List.length_cons] at hlen; omega)
    obtain ⟨b32, data, rfl⟩ := List.exists_of_length_succ data (show data.length = data.length - 1 + 1 by simp only [List.length_cons] at hlen; omega)
    obtain ⟨b33, data, rfl⟩ := List.exists_of_length_succ data (show data.length = data.length - 1 + 1 by simp only [List.length_cons] at hlen; omega)
    obtain ⟨b34, data, rfl⟩ := List.exists_of_length_succ data (show data.length = data.length - 1 + 1 by simp only [List.length_cons] at hlen; omega)
    obtain ⟨b35, data, rfl⟩ := List.exists_of_length_succ data (show data.length = data.length - 1 + 1 by simp only [List.length_cons] at hlen; omega)
    simp only [parse_lifx_header, List.length_cons]
    rw [if_neg (by omega)]
    refine ⟨_, rfl, rfl, ?_, ?_⟩
    · show (if b0 + 256 * b1 > 36 then pySlice _ 36 (b0 + 256 * b1) else []) = _
      split
      · rfl
      · rename_i hng
        have hz : b0 + 256 * b1 - 36 = 0 := by omega
        simp [hz]
    · show (if b0 + 256 * b1 > 36 then pySlice _ 36 (b0 + 256 * b1) else []).length = _
      split <;>
        simp [pySlice, List.length_take, List.length_drop, List.length_cons] <;>
        omega

/-- Witness for C3 on a short buffer and on the 36-byte buffer with an
oversized declared size. -/
theorem parse_header_size_contract_witness :
    parse_lifx_header [1, 2, 3] = none ∧
    (∃ h, parse_lifx_header (100 :: 0 :: List.replicate 34 0) = some h ∧
      h.size = byteAt (100 :: 0 :: List.replicate 34 0) 0 +
        256 * byteAt (100 :: 0 :: List.replicate 34 0) 1 ∧
      h.payload = ((100 :: 0 :: List.replicate 34 0).drop 36).take (h.size - 36) ∧
      h.payload.length =
        min h.size (100 :: 0 :: List.replicate 34 0).length - 36) :=
  ⟨(parse_header_size_contract [1, 2, 3]).1 (by decide),
   (parse_header_size_contract (100 :: 0 :: List.replicate 34 0)).2 (by decide)⟩

/-- C4. Truncated-payload rejection for every per-message-type payload
parser in `lifx_protocol.py`: each of the seventeen parsers returns the
failure value on every payload shorter than its minimum required length,
and on every payload at or above that minimum it returns a fully populated
result (every field of the returned dictionary filled from the payload,
with variable-length zone/tile arrays bound-checked as in the source). -/
theorem payload_parsers_min_length :
    (∀ p : List Nat, p.length < 5 → parse_state_service p = none) ∧
    (∀ p : List Nat, 5 ≤ p.length →
      parse_state_service p = some (byteAt p 0, readU32 p 1)) ∧
    (∀ p : List Nat, p.length < 32 → parse_state_label p = none) ∧
    (∀ p : List Nat, 32 ≤ p.length →
      parse_state_label p = some (rstripZeros (pySlice p 0 32))) ∧
    (∀ p : List Nat, p.length < 52 → parse_light_state p = none) ∧
    (∀ p : List Nat, 52 ≤ p.length →
      parse_light_state p = some
        { hue := readU16 p 0, saturation := readU16 p 2,
          brightness := readU16 p 4, kelvin := readU16 p 6,
          power := readU16 p 10, label := rstripZeros (pySlice p 12 44) }) ∧
    (∀ p : List Nat, p.length < 12 → parse_state_version p = none) ∧
    (∀ p : List Nat, 12 ≤ p.length →
      parse_state_version p = some { vendor := readU32 p 0, product := readU32 p 4 }) ∧
    (∀ p : List Nat, p.length < 20 → parse_state_hostfirmware p = none) ∧
    (∀ p : List Nat, 20 ≤ p.length →
      parse_state_hostfirmware p = some
        { build := readU64 p 0, version_major := readU16 p 18,
          version_minor := readU16 p 16 }) ∧
    (∀ p : List Nat, p.length < 14 → parse_state_wifiinfo p = none) ∧
    (∀ p : List Nat, 14 ≤ p.length →
      parse_state_wifiinfo p = some { signal := readU32 p 0 }) ∧
    (∀ p : List Nat, p.length < 24 → parse_state_info p = none) ∧
    (∀ p : List Nat, 24 ≤ p.length →
      parse_state_info p = some
        { time := readU64 p 0, uptime := readU64 p 8,
          downtime := readU64 p 16 }) ∧
    (∀ p : List Nat, p.length < 56 → parse_state_location p = none) ∧
    (∀ p : List Nat, 56 ≤ p.length →
      parse_state_location p = some
        { location_id := bytesHex (pySlice p 0 16),
          label := rstripZeros (pySlice p 16 48),
          updated_at := readU64 p 48 }) ∧
    (∀ p : List Nat, p.length < 56 → parse_state_group p = none) ∧
    (∀ p : List Nat, 56 ≤ p.length →
      parse_state_group p = some
        { group_id := bytesHex (pySlice p 0 16),
          label := rstripZeros (pySlice p 16 48),
          updated_at := readU64 p 48 }) ∧
    (∀ p : List Nat, p.length < 2 → parse_state_infrared p = none) ∧
    (∀ p : List Nat, 2 ≤ p.length →
      parse_state_infrared p = some { brightness := readU16 p 0 }) ∧
    (∀ p : List Nat, p.length < 10 → parse_state_zone p = none) ∧
    (∀ p : List Nat, 10 ≤ p.length →
      parse_state_zone p = some
        { zones_count := byteAt p 0, zone_index := byteAt p 1,
          zones := [{ index := byteAt p 1, hue := readU16 p 2,
                      saturation := readU16 p 4, brightness := readU16 p 6,
                      kelvin := readU16 p 8 }] }) ∧
    (∀ p : List Nat, p.length < 66 → parse_state_multizone p = none) ∧
    (∀ p : List Nat, 66 ≤ p.length →
      parse_state_multizone p = some
        { zones_count := byteAt p 0, zone_index := byteAt p 1,
          zones := readMultizoneRecords p (byteAt p 1) 0 8 }) ∧
    (∀ p : List Nat, p.length < 5 → parse_state_extended_color_zones p = none) ∧
    (∀ p : List Nat, 5 ≤ p.length →
      parse_state_extended_color_zones p = some
        { zones_count := readU16 p 0, zone_index := readU16 p 2,
          colors_count := byteAt p 4,
          zones := readZonesFrom p (readU16 p 2) 0 (min (byteAt p 4) 82) }) ∧
    (∀ p : List Nat, p.length < 59 → parse_state_multizone_effect p = none) ∧
    (∀ p : List Nat, 59 ≤ p.length →
      parse_state_multizone_effect p = some
        { instanceid := readU32 p 0, type := byteAt p 4,
          type_name := multizone_effect_name (byteAt p 4),
          speed := readU32 p 7, duration := readU64 p 11 }) ∧
    (∀ p : List Nat, p.length < 882 → parse_state_device_chain p = none) ∧
    (∀ p : List Nat, 882 ≤ p.length →
      parse_state_device_chain p = some
        { start_index := byteAt p 0,
          total_count :=
            if 881 < (p).length then byteAt p 881
            else (readTileRecords p 0 16).length,
          tiles := readTileRecords p 0 16 }) ∧
    (∀ p : List Nat, p.length < 517 → parse_state64 p = none) ∧
    (∀ p : List Nat, 517 ≤ p.length →
      parse_state64 p = some
        { tile_index := byteAt p 0, x := byteAt p 2, y := byteAt p 3,
          width := byteAt p 4, colors := readTileColors p 0 64 }) ∧
    (∀ p : List Nat, p.length < 187 → parse_state_tile_effect p = none) ∧
    (∀ p : List Nat, 187 ≤ p.length →
      parse_state_tile_effect p = some
        { instanceid := readU32 p 2, type := byteAt p 6,
          type_name := tile_effect_name (byteAt p 6),
          speed := readU32 p 7, duration := readU64 p 11 }) := by
  refine ⟨?_, ?_, ?_, ?_, ?_, ?_, ?_, ?_, ?_, ?_, ?_, ?_, ?_, ?_, ?_, ?_, ?_, ?_, ?_, ?_, ?_, ?_, ?_, ?_, ?_, ?_, ?_, ?_, ?_, ?_, ?_, ?_, ?_, ?_⟩ <;> intro p hp
  · simp [parse_state_service, hp]
  · simp [parse_state_service, Nat.not_lt.2 hp]
  · simp [parse_state_label, hp]
  · simp [parse_state_label, Nat.not_lt.2 hp]
  · simp [parse_light_state, hp]
  · simp [parse_light_state, Nat.not_lt.2 hp]
  · simp [parse_state_version, hp]
  · simp [parse_state_version, Nat.not_lt.2 hp]
  · simp [parse_state_hostfirmware, hp]
  · simp [parse_state_hostfirmware, Nat.not_lt.2 hp]
  · simp [parse_state_wifiinfo, hp]
  · simp [parse_state_wifiinfo, Nat.not_lt.2 hp]
  · simp [parse_state_info, hp]
  · simp [parse_state_info, Nat.not_lt.2 hp]
  · simp [parse_state_location, hp]
  · simp [parse_state_location, Nat.not_lt.2 hp]
  · simp [parse_state_group, hp]
  · simp [parse_state_group, Nat.not_lt.2 hp]
  · simp [parse_state_infrared, hp]
  · simp [parse_state_infrared, Nat.not_lt.2 hp]
  · simp [parse_state_zone, hp]
  · simp [parse_state_zone, Nat.not_lt.2 hp]
  · simp [parse_state_multizone, hp]
  · simp [parse_state_multizone, Nat.not_lt.2 hp]
  · simp [parse_state_extended_color_zones, hp]
  · simp [parse_state_extended_color_zones, Nat.not_lt.2 hp]
  · simp [parse_state_multizone_effect, hp]
  · simp [parse_state_multizone_effect, Nat.not_lt.2 hp]
  · simp [parse_state_device_chain, hp]
  · simp [parse_state_device_chain, Nat.not_lt.2 hp]
  · simp [parse_state64, hp]
  · simp [parse_state64, Nat.not_lt.2 hp]
  · simp [parse_state_tile_effect, hp]
  · simp [parse_state_tile_effect, Nat.not_lt.2 hp]

/-- Witness for C4: every parser evaluated on a concrete payload one byte
below its minimum length and on one exactly at its minimum length. -/
theorem payload_parsers_min_length_witness :
    parse_state_service (List.replicate 4 0) = none ∧
    parse_state_service (List.replicate 5 0) =
      some (byteAt (List.replicate 5 0) 0, readU32 (List.replicate 5 0) 1) ∧
    parse_state_label (List.replicate 31 0) = none ∧
    parse_state_label (List.replicate 32 0) =
      some (rstripZeros (pySlice (List.replicate 32 0) 0 32)) ∧
    parse_light_state (List.replicate 51 0) = none ∧
    parse_light_state (List.replicate 52 0) =
      some
        { hue := readU16 (List.replicate 52 0) 0, saturation := readU16 (List.replicate 52 0) 2,
          brightness := readU16 (List.replicate 52 0) 4, kelvin := readU16 (List.replicate 52 0) 6,
          power := readU16 (List.replicate 52 0) 10, label := rstripZeros (pySlice (List.replicate 52 0) 12 44) } ∧
    parse_state_version (List.replicate 11 0) = none ∧
    parse_state_version (List.replicate 12 0) =
      some { vendor := readU32 (List.replicate 12 0) 0, product := readU32 (List.replicate 12 0) 4 } ∧
    parse_state_hostfirmware (List.replicate 19 0) = none ∧
    parse_state_hostfirmware (List.replicate 20 0) =
      some
        { build := readU64 (List.replicate 20 0) 0, version_major := readU16 (List.replicate 20 0) 18,
          version_minor := readU16 (List.replicate 20 0) 16 } ∧
    parse_state_wifiinfo (List.replicate 13 0) = none ∧
    parse_state_wifiinfo (List.replicate 14 0) =
      some { signal := readU32 (List.replicate 14 0) 0 } ∧
    parse_state_info (List.replicate 23 0) = none ∧
    parse_state_info (List.replicate 24 0) =
      some
        { time := readU64 (List.replicate 24 0) 0, uptime := readU64 (List.replicate 24 0) 8,
          downtime := readU64 (List.replicate 24 0) 16 } ∧
    parse_state_location (List.replicate 55 0) = none ∧
    parse_state_location (List.replicate 56 0) =
      some
        { location_id := bytesHex (pySlice (List.replicate 56 0) 0 16),
          label := rstripZeros (pySlice (List.replicate 56 0) 16 48),
          updated_at := readU64 (List.replicate 56 0) 48 } ∧
    parse_state_group (List.replicate 55 0) = none ∧
    parse_state_group (List.replicate 56 0) =
      some
        { group_id := bytesHex (pySlice (List.replicate 56 0) 0 16),
          label := rstripZeros (pySlice (List.replicate 56 0) 16 48),
          updated_at := readU64 (List.replicate 56 0) 48 } ∧
    parse_state_infrared (List.replicate 1 0) = none ∧
    parse_state_infrared (List.replicate 2 0) =
      some { brightness := readU16 (List.replicate 2 0) 0 } ∧
    parse_state_zone (List.replicate 9 0) = none ∧
    parse_state_zone (List.replicate 10 0) =
      some
        { zones_count := byteAt (List.replicate 10 0) 0, zone_index := byteAt (List.replicate 10 0) 1,
          zones := [{ index := byteAt (List.replicate 10 0) 1, hue := readU16 (List.replicate 10 0) 2,
                      saturation := readU16 (List.replicate 10 0) 4, brightness := readU16 (List.replicate 10 0) 6,
                      kelvin := readU16 (List.replicate 10 0) 8 }] } ∧
    parse_state_multizone (List.replicate 65 0) = none ∧
    parse_state_multizone (List.replicate 66 0) =
      some
        { zones_count := byteAt (List.replicate 66 0) 0, zone_index := byteAt (List.replicate 66 0) 1,
          zones := readMultizoneRecords (List.replicate 66 0) (byteAt (List.replicate 66 0) 1) 0 8 } ∧
    parse_state_extended_color_zones (List.replicate 4 0) = none ∧
    parse_state_extended_color_zones (List.replicate 5 0) =
      some
        { zones_count := readU16 (List.replicate 5 0) 0, zone_index := readU16 (List.replicate 5 0) 2,
          colors_count := byteAt (List.replicate 5 0) 4,
          zones := readZonesFrom (List.replicate 5 0) (readU16 (List.replicate 5 0) 2) 0 (min (byteAt (List.replicate 5 0) 4) 82) } ∧
    parse_state_multizone_effect (List.replicate 58 0) = none ∧
    parse_state_multizone_effect (List.replicate 59 0) =
      some
        { instanceid := readU32 (List.replicate 59 0) 0, type := byteAt (List.replicate 59 0) 4,
          type_name := multizone_effect_name (byteAt (List.replicate 59 0) 4),
          speed := readU32 (List.replicate 59 0) 7, duration := readU64 (List.replicate 59 0) 11 } ∧
    parse_state_device_chain (List.replicate 881 0) = none ∧
    parse_state_device_chain (List.replicate 882 0) =
      some
        { start_index := byteAt (List.replicate 882 0) 0,
          total_count :=
            if 881 < ((List.replicate 882 0)).length then byteAt (List.replicate 882 0) 881
            else (readTileRecords (List.replicate 882 0) 0 16).length,
          tiles := readTileRecords (List.replicate 882 0) 0 16 } ∧
    parse_state64 (List.replicate 516 0) = none ∧
    parse_state64 (List.replicate 517 0) =
      some
        { tile_index := byteAt (List.replicate 517 0) 0, x := byteAt (List.replicate 517 0) 2, y := byteAt (List.replicate 517 0) 3,
          width := byteAt (List.replicate 517 0) 4, colors := readTileColors (List.replicate 517 0) 0 64 } ∧
    parse_state_tile_effect (List.replicate 186 0) = none ∧
    parse_state_tile_effect (List.replicate 187 0) =
      some
        { instanceid := readU32 (List.replicate 187 0) 2, type := byteAt (List.replicate 187 0) 6,
          type_name := tile_effect_name (byteAt (List.replicate 187 0) 6),
          speed := readU32 (List.replicate 187 0) 7, duration := readU64 (List.replicate 187 0) 11 } :=
  ⟨payload_parsers_min_length.1 (List.replicate 4 0) (by rw [List.length_replicate]; omega),
   payload_parsers_min_length.2.1 (List.replicate 5 0) (by rw [List.length_replicate]),
   payload_parsers_min_length.2.2.1 (List.replicate 31 0) (by rw [List.length_replicate]; omega),
   payload_parsers_min_length.2.2.2.1 (List.replicate 32 0) (by rw [List.length_replicate]),
   payload_parsers_min_length.2.2.2.2.1 (List.replicate 51 0) (by rw [List.length_replicate]; omega),
   payload_parsers_min_length.2.2.2.2.2.1 (List.replicate 52 0) (by rw [List.length_replicate]),
   payload_parsers_min_length.2.2.2.2.2.2.1 (List.replicate 11 0) (by rw [List.length_replicate]; omega),
   payload_parsers_min_length.2.2.2.2.2.2.2.1 (List.replicate 12 0) (by rw [List.length_replicate]),
   payload_parsers_min_length.2.2.2.2.2.2.2.2.1 (List.replicate 19 0) (by rw [List.length_replicate]; omega),
   payload_parsers_min_length.2.2.2.2.2.2.2.2.2.1 (List.replicate 20 0) (by rw [List.length_replicate]),
   payload_parsers_min_length.2.2.2.2.2.2.2.2.2.2.1 (List.replicate 13 0) (by rw [List.length_replicate]; omega),
   payload_parsers_min_length.2.2.2.2.2.2.2.2.2.2.2.1 (List.replicate 14 0) (by rw [List.length_replicate]),
   payload_parsers_min_length.2.2.2.2.2.2.2.2.2.2.2.2.1 (List.replicate 23 0) (by rw [List.length_replicate]; omega),
   payload_parsers_min_length.2.2.2.2.2.2.2.2.2.2.2.2.2.1 (List.replicate 24 0) (by rw [List.length_replicate]),
   payload_parsers_min_length.2.2.2.2.2.2.2.2.2.2.2.2.2.2.1 (List.replicate 55 0) (by rw [List.length_replicate]; omega),
   payload_parsers_min_length.2.2.2.2.2.2.2.2.2.2.2.2.2.2.2.1 (List.replicate 56 0) (by rw [List.length_replicate]),
   payload_parsers_min_length.2.2.2.2.2.2.2.2.2.2.2.2.2.2.2.2.1 (List.replicate 55 0) (by rw [List.length_replicate]; omega),
   payload_parsers_min_length.2.2.2.2.2.2.2.2.2.2.2.2.2.2.2.2.2.1 (List.replicate 56 0) (by rw [List.length_replicate]),
   payload_parsers_min_length.2.2.2.2.2.2.2.2.2.2.2.2.2.2.2.2.2.2.1 (List.replicate 1 0) (by rw [List.length_replicate]; omega),
   payload_parsers_min_length.2.2.2.2.2.2.2.2.2.2.2.2.2.2.2.2.2.2.2.1 (List.replicate 2 0) (by rw [List.length_replicate]),
   payload_parsers_min_length.2.2.2.2.2.2.2.2.2.2.2.2.2.2.2.2.2.2.2.2.1 (List.replicate 9 0) (by rw [List.length_replicate]; omega),
   payload_parsers_min_length.2.2.2.2.2.2.2.2.2.2.2.2.2.2.2.2.2.2.2.2.2.1 (List.replicate 10 0) (by rw [List.length_replicate]),
   payload_parsers_min_length.2.2.2.2.2.2.2.2.2.2.2.2.2.2.2.2.2.2.2.2.2.2.1 (List.replicate 65 0) (by rw [List.length_replicate]; omega),
   payload_parsers_min_length.2.2.2.2.2.2.2.2.2.2.2.2.2.2.2.2.2.2.2.2.2.2.2.1 (List.replicate 66 0) (by rw [List.length_replicate]),
   payload_parsers_min_length.2.2.2.2.2.2.2.2.2.2.2.2.2.2.2.2.2.2.2.2.2.2.2.2.1 (List.replicate 4 0) (by rw [List.length_replicate]; omega),
   payload_parsers_min_length.2.2.2.2.2.2.2.2.2.2.2.2.2.2.2.2.2.2.2.2.2.2.2.2.2.1 (List.replicate 5 0) (by rw [List.length_replicate]),
   payload_parsers_min_length.2.2.2.2.2.2.2.2.2.2.2.2.2.2.2.2.2.2.2.2.2.2.2.2.2.2.1 (List.replicate 58 0) (by rw [List.length_replicate]; omega),
   payload_parsers_min_length.2.2.2.2.2.2.2.2.2.2.2.2.2.2.2.2.2.2.2.2.2.2.2.2.2.2.2.1 (List.replicate 59 0) (by rw [List.length_replicate]),
   payload_parsers_min_length.2.2.2.2.2.2.2.2.2.2.2.2.2.2.2.2.2.2.2.2.2.2.2.2.2.2.2.2.1 (List.replicate 881 0) (by rw [List.length_replicate]; omega),
   payload_parsers_min_length.2.2.2.2.2.2.2.2.2.2.2.2.2.2.2.2.2.2.2.2.2.2.2.2.2.2.2.2.2.1 (List.replicate 882 0) (by rw [List.length_replicate]),
   payload_parsers_min_length.2.2.2.2.2.2.2.2.2.2.2.2.2.2.2.2.2.2.2.2.2.2.2.2.2.2.2.2.2.2.1 (List.replicate 516 0) (by rw [List.length_replicate]; omega),
   payload_parsers_min_length.2.2.2.2.2.2.2.2.2.2.2.2.2.2.2.2.2.2.2.2.2.2.2.2.2.2.2.2.2.2.2.1 (List.replicate 517 0) (by rw [List.length_replicate]),
   payload_parsers_min_length.2.2.2.2.2.2.2.2.2.2.2.2.2.2.2.2.2.2.2.2.2.2.2.2.2.2.2.2.2.2.2.2.1 (List.replicate 186 0) (by rw [List.length_replicate]; omega),
   payload_parsers_min_length.2.2.2.2.2.2.2.2.2.2.2.2.2.2.2.2.2.2.2.2.2.2.2.2.2.2.2.2.2.2.2.2.2 (List.replicate 187 0) (by rw [List.length_replicate])⟩

/-- C5, counterexample: `kitchen` is a case-insensitive substring of the
label `Kitchen Light`, yet `get_device` returns no device - the lookup
matches labels only by full case-insensitive equality, not by substring. -/
theorem get_device_substring_cex :
    containsChars (lowerStr "Kitchen Light").data (lowerStr "kitchen").data = true ∧
    get_device [kitchenDevice] "kitchen" = none :=
  ⟨by decide, by decide⟩

/-- C5, amended: `get_device` returns the first device in iteration order
whose serial equals the identifier case-insensitively, whose IP address
equals it exactly, or whose label equals it case-insensitively (full
equality only, not substring); it returns `none` when no device matches. -/
theorem get_device_first_match_spec (devices : List LIFXDevice)
    (identifier : String) :
    (get_device devices identifier = none ↔
      ∀ d ∈ devices, device_matches identifier d = false) ∧
    (∀ dev, get_device devices identifier = some dev ↔
      ∃ pre post, devices = pre ++ dev :: post ∧
        device_matches identifier dev = true ∧
        ∀ d ∈ pre, device_matches identifier d = false) := by
  induction devices with
  | nil =>
    constructor
    · simp [get_device]
    · intro dev
      simp [get_device]
  | cons d rest ih =>
    by_cases hm : device_matches identifier d = true
    · constructor
      · simp [get_device_cons, hm]
      · intro dev
        rw [get_device_cons, if_pos hm]
        constructor
        · intro hsome
          obtain rfl : d = dev := by injection hsome
          exact ⟨[], rest, rfl, hm, by simp⟩
        · rintro ⟨pre, post, hdecomp, hdev, hpre⟩
          cases pre with
          | nil =>
            obtain ⟨rfl, rfl⟩ : d = dev ∧ rest = post := by
              simpa using hdecomp
            rfl
          | cons p ps =>
            obtain ⟨rfl, -⟩ : d = p ∧ rest = ps ++ dev :: post := by
              simpa using hdecomp
            have hcontra : device_matches identifier d = false := hpre d (by simp)
            rw [hm] at hcontra
            cases hcontra
    · have hm2 : device_matches identifier d = false := by
        simpa using hm
      constructor
      · rw [get_device_cons, if_neg (by simp [hm2]), ih.1]
        simp [hm2]
      · intro dev
        rw [get_device_cons, if_neg (by simp [hm2]), ih.2 dev]
        constructor
        · rintro ⟨pre, post, rfl, hdev, hpre⟩
          exact ⟨d :: pre, post, rfl, hdev, by
            intro x hx
            rcases List.mem_cons.1 hx with rfl | hmem
            · exact hm2
            · exact hpre x hmem⟩
        · rintro ⟨pre, post, hdecomp, hdev, hpre⟩
          cases pre with
          | nil =>
            obtain ⟨rfl, rfl⟩ : d = dev ∧ rest = post := by
              simpa using hdecomp
            rw [hdev] at hm2
            cases hm2
          | cons p ps =>
            obtain ⟨rfl, hrest⟩ : d = p ∧ rest = ps ++ dev :: post := by
              simpa using hdecomp
            exact ⟨ps, post, hrest, hdev, fun x hx => hpre x (by simp [hx])⟩

/-- Witness for C5: a full case-insensitive label match is found. -/
theorem get_device_first_match_spec_witness :
    get_device [kitchenDevice] "kitchen light" = some kitchenDevice :=
  ((get_device_first_match_spec [kitchenDevice] "kitchen light").2
      kitchenDevice).mpr
    ⟨[], [], rfl, by decide, by simp⟩

/-- C6. Acknowledged-command result and atomicity: `set_color` returns
`true` and overwrites the device's stored hue, saturation, brightness, and
kelvin with the sent values exactly when at least one datagram arriving
before the deadline parses as an Acknowledgement (packet 45); otherwise it
returns `false` and the device record is returned unchanged. -/
theorem set_color_ack_semantics (device : LIFXDevice) (hsbk : HSBK)
    (incoming : List (List Nat × String)) :
    ((set_color device hsbk incoming).1 = true ↔
      ∃ p ∈ incoming, ∃ h, parse_lifx_header p.1 = some h ∧
        h.type = ACKNOWLEDGEMENT_TYPE) ∧
    ((set_color device hsbk incoming).1 = true →
      (set_color device hsbk incoming).2 =
        { device with
            hue := hsbk.hue
            saturation := hsbk.saturation
            brightness := hsbk.brightness
            kelvin := hsbk.kelvin }) ∧
    ((set_color device hsbk incoming).1 = false →
      (set_color device hsbk incoming).2 = device) := by
  have key := recvLoop_wait_nonempty_iff ACKNOWLEDGEMENT_TYPE incoming
  by_cases hr : recvLoop (some ACKNOWLEDGEMENT_TYPE) 100 incoming [] = []
  · rw [hr] at key
    simp only [set_color, send_and_receive, hr, List.isEmpty_nil, if_pos]
    simp only [ne_eq, not_true_eq_false, false_iff, not_exists] at key
    refine ⟨by simpa using key, by simp, by simp⟩
  · have hne : (recvLoop (some ACKNOWLEDGEMENT_TYPE) 100 incoming []).isEmpty
        = false := by
      simpa [List.isEmpty_iff] using hr
    simp only [set_color, send_and_receive, hne, Bool.false_eq_true, if_neg]
    rw [← key]
    simp [hr]

/-- Witness for C6: an acknowledged call reports success, and a call with
no responses leaves the device record unchanged. -/
theorem set_color_ack_semantics_witness :
    (set_color sampleDevice ⟨1, 2, 3, 4⟩
        [(sampleAckDatagram, "10.0.0.7")]).1 = true ∧
    (set_color sampleDevice ⟨1, 2, 3, 4⟩ []).2 = sampleDevice :=
  ⟨(set_color_ack_semantics sampleDevice ⟨1, 2, 3, 4⟩
        [(sampleAckDatagram, "10.0.0.7")]).1.mpr
      ⟨(sampleAckDatagram, "10.0.0.7"), by simp, _, rfl, rfl⟩,
   (set_color_ack_semantics sampleDevice ⟨1, 2, 3, 4⟩ []).2.2 rfl⟩

/-- C7. Discovery service filtering: the 5-byte StateService payload
`0x01` + little-endian 56700 decodes to service 1 (UDP) and port 56700; a
StateService response advertising any other service leaves the discovered
map untouched, and a UDP StateService response for an unknown serial adds
exactly one device keyed by the serial from the header's target field. -/
theorem discovery_udp_filter :
    parse_state_service [1, 124, 221, 0, 0] = some (SERVICE_UDP, LIFX_PORT) ∧
    (∀ (discovered : List (String × LIFXDevice)) (header : ParsedHeader)
        (addr : String) (service port : Nat),
      parse_state_service header.payload = some (service, port) →
      service ≠ SERVICE_UDP →
      discoverStep discovered (header, addr) = discovered) ∧
    (∀ (discovered : List (String × LIFXDevice)) (header : ParsedHeader)
        (addr : String) (port : Nat),
      header.type = STATESERVICE_TYPE →
      parse_state_service header.payload = some (SERVICE_UDP, port) →
      discovered.lookup header.serial = none →
      discoverStep discovered (header, addr) =
        discovered ++ [(header.serial,
          { ip_address := addr, port := port, serial := header.serial,
            service := SERVICE_UDP })]) := by
  refine ⟨rfl, ?_, ?_⟩
  · intro discovered header addr service port hp hs
    simp only [discoverStep]
    split
    · rfl
    · rw [hp]
      simp [hs]
  · intro discovered header addr port ht hp hl
    simp only [discoverStep, ht, hp]
    simp [hl]

/-- Witness for C7: a reserved-service response adds nothing, a UDP
response adds one device keyed by the serial. -/
theorem discovery_udp_filter_witness :
    discoverStep [] (sampleReservedHeader, "10.0.0.9") = [] ∧
    discoverStep [] (sampleUdpHeader, "10.0.0.9") =
      [("aa:bb:cc:dd:ee:ff",
        { ip_address := "10.0.0.9", port := 56700,
          serial := "aa:bb:cc:dd:ee:ff", service := 1 })] :=
  ⟨discovery_udp_filter.2.1 [] sampleReservedHeader "10.0.0.9" 2 56700
      rfl (by decide),
   discovery_udp_filter.2.2 [] sampleUdpHeader "10.0.0.9" 56700 rfl rfl rfl⟩

/-- C8. Extended-color-zones bound check: on any payload of at least 5
bytes the parser succeeds, reports `colors_count` from payload byte 4, and
returns a zones list truncated at the first 8-byte record not fully inside
the payload - its length is the minimum of `min colors_count 82` and the
number of complete records the payload holds, hence never exceeds
`min colors_count 82` and never requires an out-of-bounds read. -/
theorem extended_color_zones_bounded (payload : List Nat)
    (h5 : 5 ≤ payload.length) :
    ∃ r, parse_state_extended_color_zones payload = some r ∧
      r.colors_count = byteAt payload 4 ∧
      r.zones.length = min (min (byteAt payload 4) 82)
        ((payload.length - 5) / 8) ∧
      r.zones.length ≤ min (byteAt payload 4) 82 := by
  refine ⟨_, if_neg (by omega), rfl, ?_, ?_⟩ <;>
    have hl := readZonesFrom_length payload (readU16 payload 2)
      (min (byteAt payload 4) 82) 0 <;>
    simp only [hl] <;> omega

/-- Witness for C8 on a payload declaring three colors but holding two. -/
theorem extended_color_zones_bounded_witness :
    ∃ r, parse_state_extended_color_zones sampleExtZonesPayload = some r ∧
      r.colors_count = byteAt sampleExtZonesPayload 4 ∧
      r.zones.length = min (min (byteAt sampleExtZonesPayload 4) 82)
        ((sampleExtZonesPayload.length - 5) / 8) ∧
      r.zones.length ≤ min (byteAt sampleExtZonesPayload 4) 82 :=
  extended_color_zones_bounded sampleExtZonesPayload (by decide)

/-- C9, counterexample: at hue `359.999` degrees the scaled value rounds up
to 65536, the `% 0x10000` wraps the stored hue to 0, and converting back
to degrees yields 0 - which differs from the input by far more than one
quantization step of `360 / 65536` degrees. -/
theorem from_degrees_hue_wrap_cex :
    (0 : ℚ) ≤ 359999 / 1000 ∧ (359999 / 1000 : ℚ) < 360 ∧
    360 / 65536 <
      |to_degrees_hue (from_degrees_hue (359999 / 1000)) - 359999 / 1000| := by
  have hval : from_degrees_hue (359999 / 1000) = 0 := by
    unfold from_degrees_hue pyround
    have hfloor : ⌊(65536 * (359999 / 1000) / 360 : ℚ)⌋ = 65535 := by
      rw [Int.floor_eq_iff]
      constructor
      · push_cast
        norm_num
      · push_cast
        norm_num
    have hfr : Int.fract (65536 * (359999 / 1000) / 360 : ℚ) ≠ 1 / 2 := by
      have heq : Int.fract (65536 * (359999 / 1000) / 360 : ℚ)
          = 65536 * (359999 / 1000) / 360 - 65535 := by
        rw [← Int.self_sub_floor, hfloor]
        norm_num
      rw [heq]
      norm_num
    rw [if_neg hfr, round_eq]
    have hfloor2 : ⌊(65536 * (359999 / 1000) / 360 + 1 / 2 : ℚ)⌋ = 65536 := by
      rw [Int.floor_eq_iff]
      constructor
      · push_cast
        norm_num
      · push_cast
        norm_num
    rw [hfloor2]
    decide
  refine ⟨by norm_num, by norm_num, ?_⟩
  rw [hval]
  unfold to_degrees_hue
  rw [show ((0 : ℤ) : ℚ) * 360 / 65536 - 359999 / 1000 = -(359999 / 1000)
      by norm_num,
    abs_neg, abs_of_nonneg (by norm_num)]
  norm_num

/-- C9, amended: for hue in `[0, 360)` the round trip through the inverse
degree conversion is within one 65536-scale quantization step of the input
up to the wrap at 360° (the stored hue may wrap to 0 when the input is
within half a step of 360°, in which case it is within one step of
`h - 360`); saturation and brightness in `[0, 1]` round trip within one
65535-scale step with no wrap. -/
theorem from_degrees_roundtrip_quantized (h s b : ℚ)
    (hh0 : 0 ≤ h) (hh1 : h < 360) (hs0 : 0 ≤ s) (hs1 : s ≤ 1)
    (hb0 : 0 ≤ b) (hb1 : b ≤ 1) :
    (|to_degrees_hue (from_degrees_hue h) - h| ≤ 360 / 65536 ∨
      |to_degrees_hue (from_degrees_hue h) - (h - 360)| ≤ 360 / 65536) ∧
    |to_fraction (from_degrees_sat s) - s| ≤ 1 / 65535 ∧
    |to_fraction (from_degrees_bright b) - b| ≤ 1 / 65535 := by
  refine ⟨?_, ?_, ?_⟩
  · set x : ℚ := 65536 * h / 360 with hxdef
    have hx0 : 0 ≤ x := by positivity
    have hx1 : x < 65536 := by
      rw [hxdef, div_lt_iff₀ (by norm_num)]
      linarith
    obtain ⟨hrl, hrr⟩ := abs_le.1 (abs_sub_pyround x)
    set r : ℤ := pyround x with hrdef
    have hr0 : 0 ≤ r := by
      by_contra hneg
      push_neg at hneg
      have hle : r ≤ -1 := by omega
      have : (r : ℚ) ≤ -1 := by exact_mod_cast hle
      linarith
    have hr65536 : r ≤ 65536 := by
      by_contra hbig
      push_neg at hbig
      have hge : 65537 ≤ r := by omega
      have : (65537 : ℚ) ≤ (r : ℚ) := by exact_mod_cast hge
      linarith
    rcases eq_or_lt_of_le hr65536 with heq | hlt
    · right
      have hmod : from_degrees_hue h = 0 := by
        unfold from_degrees_hue
        rw [← hxdef, ← hrdef, heq]
        decide
      rw [hmod]
      have hxr : (r : ℚ) = 65536 := by exact_mod_cast heq
      rw [hxr] at hrl hrr
      unfold to_degrees_hue
      rw [abs_le]
      constructor <;> push_cast <;> rw [hxdef] at hrl hrr <;> nlinarith
    · left
      have hmod : from_degrees_hue h = r := by
        unfold from_degrees_hue
        rw [← hxdef, ← hrdef]
        exact Int.emod_eq_of_lt hr0 (by omega)
      rw [hmod]
      unfold to_degrees_hue
      rw [abs_le]
      constructor <;> rw [hxdef] at hrl hrr <;> nlinarith
  · obtain ⟨hrl, hrr⟩ := abs_le.1 (abs_sub_pyround (65535 * s))
    unfold from_degrees_sat to_fraction
    rw [abs_le]
    constructor <;> linarith
  · obtain ⟨hrl, hrr⟩ := abs_le.1 (abs_sub_pyround (65535 * b))
    unfold from_degrees_bright to_fraction
    rw [abs_le]
    constructor <;> linarith

/-- Witness for C9 at hue 100°, saturation 1/2, brightness 1/4. -/
theorem from_degrees_roundtrip_quantized_witness :
    (|to_degrees_hue (from_degrees_hue 100) - 100| ≤ 360 / 65536 ∨
      |to_degrees_hue (from_degrees_hue 100) - (100 - 360)| ≤ 360 / 65536) ∧
    |to_fraction (from_degrees_sat (1 / 2)) - 1 / 2| ≤ 1 / 65535 ∧
    |to_fraction (from_degrees_bright (1 / 4)) - 1 / 4| ≤ 1 / 65535 :=
  from_degrees_roundtrip_quantized 100 (1 / 2) (1 / 4) (by norm_num)
    (by norm_num) (by norm_num) (by norm_num) (by norm_num) (by norm_num)

end LIFX
